import Mathlib

/-!
Verification development for the `libbluez` client library
(`src/common.rs`, `src/adapter.rs`, `src/device.rs`, `src/error.rs`).

Shallow embedding conventions:
* `dbus::MessageItem` becomes the inductive `MessageItem`; the various
  `FromMessageItem` impls used by the code become the `MessageItem.as*`
  decoders (pure type-tag match plus payload extraction).
* `BTreeMap<String, MessageItem>` becomes an association list `PropsMap`
  with first-match lookup (BTreeMap keys are unique, so this is faithful).
* Rust `Option::unwrap` panics become the `Panics.panicked` outcome of the
  `Panics` monad; `Result`/`try!` error returns stay `Except BtError`.
* The shared D-Bus connection handle carries no observable state for the
  functions verified here, so `Connection` is not a field of the embedded
  handle structures; only the object path is retained.
-/

/-- `error.rs`: `enum BtError { DBus(dbus::Error), DBusInternal(String) }`.
The external `dbus::Error` payload is modelled as its message string. -/
inductive BtError where
  | DBus (err : String)
  | DBusInternal (msg : String)
deriving DecidableEq, Repr

/-- `dbus::MessageItem`: the dynamically-typed unit of wire data, restricted
to the variants the verified code actually touches. -/
inductive MessageItem where
  | str (s : String)
  | bool (b : Bool)
  | uint16 (n : Nat)
  | uint32 (n : Nat)
  | int16 (n : Int)
  | array (xs : List MessageItem)
  | dictEntry (k v : MessageItem)
  | variant (v : MessageItem)

/-- Panic-aware outcome of running a piece of Rust code: `unwrap` on `None`
(or on `Err`) aborts, everything else produces a value. -/
inductive Panics (α : Type) where
  | ok (a : α)
  | panicked
deriving DecidableEq, Repr

/-- `Option::unwrap`: panics on `none`. -/
def Option.unwrapP : Option α → Panics α
  | some a => .ok a
  | none => .panicked

def Panics.bind : Panics α → (α → Panics β) → Panics β
  | .ok a, f => f a
  | .panicked, _ => .panicked

instance : Monad Panics where
  pure := Panics.ok
  bind := Panics.bind

def Panics.isPanic : Panics α → Bool
  | .ok _ => false
  | .panicked => true

namespace MessageItem

/-- `FromMessageItem for &str`. -/
def asStr : MessageItem → Option String
  | .str s => some s
  | _ => none

/-- `FromMessageItem for bool`. -/
def asBool : MessageItem → Option Bool
  | .bool b => some b
  | _ => none

/-- `FromMessageItem for u32`. -/
def asU32 : MessageItem → Option Nat
  | .uint32 n => some n
  | _ => none

/-- `FromMessageItem for u16`. -/
def asU16 : MessageItem → Option Nat
  | .uint16 n => some n
  | _ => none

/-- `FromMessageItem for i16`. -/
def asI16 : MessageItem → Option Int
  | .int16 n => some n
  | _ => none

/-- `FromMessageItem for &[MessageItem]` (matches `Array`). -/
def asArray : MessageItem → Option (List MessageItem)
  | .array xs => some xs
  | _ => none

/-- `FromMessageItem for (&MessageItem, &MessageItem)` (matches `DictEntry`). -/
def asPair : MessageItem → Option (MessageItem × MessageItem)
  | .dictEntry k v => some (k, v)
  | _ => none

/-- `FromMessageItem for &MessageItem` (matches `Variant`, yielding its payload). -/
def asVariant : MessageItem → Option MessageItem
  | .variant v => some v
  | _ => none

end MessageItem

/-- `BTreeMap<String, dbus::MessageItem>`, as an association list. -/
def PropsMap := List (String × MessageItem)

/-- `BTreeMap::get`. -/
def PropsMap.get (d : PropsMap) (name : String) : Option MessageItem :=
  (List.find? (fun kv => kv.1 == name) d).map (·.2)

/-- `_get_prop::<&str>` (`device.rs` / `adapter.rs`):
`props_map.get(name).and_then(|x| x.inner().ok())`. -/
def _get_propStr (d : PropsMap) (name : String) : Option String :=
  (d.get name).bind MessageItem.asStr

/-- `_get_prop::<bool>`. -/
def _get_propBool (d : PropsMap) (name : String) : Option Bool :=
  (d.get name).bind MessageItem.asBool

/-- `_get_prop::<u32>`. -/
def _get_propU32 (d : PropsMap) (name : String) : Option Nat :=
  (d.get name).bind MessageItem.asU32

/-- `_get_prop::<u16>`. -/
def _get_propU16 (d : PropsMap) (name : String) : Option Nat :=
  (d.get name).bind MessageItem.asU16

/-- `_get_prop::<i16>`. -/
def _get_propI16 (d : PropsMap) (name : String) : Option Int :=
  (d.get name).bind MessageItem.asI16

/-- `_get_prop::<&[MessageItem]>`. -/
def _get_propArr (d : PropsMap) (name : String) : Option (List MessageItem) :=
  (d.get name).bind MessageItem.asArray

/-- `.iter().map(|x| (x.inner() as Result<&str, ()>).unwrap().to_string()).collect()`:
element-wise string decode where any non-string element panics. -/
def decodeStrList : List MessageItem → Panics (List String)
  | [] => .ok []
  | x :: xs =>
    match x.asStr with
    | none => .panicked
    | some s =>
      match decodeStrList xs with
      | .panicked => .panicked
      | .ok rest => .ok (s :: rest)

/-- `adapter.rs`: `struct AdapterProperties`. -/
structure AdapterProperties where
  address : String
  name : String
  «alias» : String
  «class» : Nat
  powered : Bool
  discoverable : Bool
  discoverable_timeout : Nat
  pairable : Bool
  pairable_timeout : Nat
  discovering : Bool
  uuids : List String
  modalias : Option String
deriving DecidableEq, Repr

/-- `AdapterProperties::new` (`adapter.rs`): required fields are `unwrap`ped
(panic on absence/mismatch), `Modalias` is optional, and `UUIDs` is required
(`unwrap`) with element-wise string decoding. -/
def AdapterProperties.new (d : PropsMap) : Panics AdapterProperties := do
  let address ← (_get_propStr d "Address").unwrapP
  let name ← (_get_propStr d "Name").unwrapP
  let aliasv ← (_get_propStr d "Alias").unwrapP
  let cls ← (_get_propU32 d "Class").unwrapP
  let powered ← (_get_propBool d "Powered").unwrapP
  let discoverable ← (_get_propBool d "Discoverable").unwrapP
  let discoverable_timeout ← (_get_propU32 d "DiscoverableTimeout").unwrapP
  let pairable ← (_get_propBool d "Pairable").unwrapP
  let pairable_timeout ← (_get_propU32 d "PairableTimeout").unwrapP
  let discovering ← (_get_propBool d "Discovering").unwrapP
  let uuidItems ← (_get_propArr d "UUIDs").unwrapP
  let uuids ← decodeStrList uuidItems
  let modalias := _get_propStr d "Modalias"
  pure { address, name, «alias» := aliasv, «class» := cls, powered, discoverable,
         discoverable_timeout, pairable, pairable_timeout, discovering,
         uuids, modalias }

/-- `device.rs`: `struct DeviceProperties`. -/
structure DeviceProperties where
  address : String
  name : Option String
  «alias» : String
  icon : Option String
  «class» : Option Nat
  appearance : Option Nat
  uuids : List String
  paired : Bool
  connected : Bool
  trusted : Bool
  blocked : Bool
  legacy_pairing : Bool
  modalias : Option String
  rssi : Option Int
deriving DecidableEq, Repr

/-- `DeviceProperties::new` (`device.rs`): `Address`/`Alias` and the five
booleans are `unwrap`ped (required); `UUIDs` is `unwrap_or(&Vec::new())`
(absent or mismatched ⇒ empty list) with element-wise string decoding. -/
def DeviceProperties.new (d : PropsMap) : Panics DeviceProperties := do
  let address ← (_get_propStr d "Address").unwrapP
  let name := _get_propStr d "Name"
  let aliasv ← (_get_propStr d "Alias").unwrapP
  let icon := _get_propStr d "Icon"
  let cls := _get_propU32 d "Class"
  let appearance := _get_propU16 d "Appearance"
  let uuids ← decodeStrList ((_get_propArr d "UUIDs").getD [])
  let paired ← (_get_propBool d "Paired").unwrapP
  let connected ← (_get_propBool d "Connected").unwrapP
  let trusted ← (_get_propBool d "Trusted").unwrapP
  let blocked ← (_get_propBool d "Blocked").unwrapP
  let legacy_pairing ← (_get_propBool d "LegacyPairing").unwrapP
  let modalias := _get_propStr d "Modalias"
  let rssi := _get_propI16 d "RSSI"
  pure { address, name, «alias» := aliasv, icon, «class» := cls, appearance, uuids,
         paired, connected, trusted, blocked, legacy_pairing, modalias, rssi }

/-- `Device::get_properties`: `Ok(DeviceProperties::new(try!(p.get_all())))` —
a transport failure propagates as `Err`; a required-field failure inside
`new` panics. The bus reply is the function's input. -/
def Device.get_properties (busReply : Except BtError PropsMap) :
    Panics (Except BtError DeviceProperties) :=
  match busReply with
  | .error e => .ok (.error e)
  | .ok d =>
    match DeviceProperties.new d with
    | .panicked => .panicked
    | .ok p => .ok (.ok p)

/-- `Adapter::get_properties`, same shape as `Device::get_properties`. -/
def Adapter.get_properties (busReply : Except BtError PropsMap) :
    Panics (Except BtError AdapterProperties) :=
  match busReply with
  | .error e => .ok (.error e)
  | .ok d =>
    match AdapterProperties.new d with
    | .panicked => .panicked
    | .ok p => .ok (.ok p)

/-- Rust `str::starts_with`, on the underlying character lists. -/
def strStartsWith (s pre : String) : Bool :=
  pre.data.isPrefixOf s.data

/-- Rust `str::ends_with`. -/
def strEndsWith (s suf : String) : Bool :=
  suf.data.isSuffixOf s.data

/-- The splitter underlying `rsplitn(2, sep)`: `some (before, after)` splits
at the LAST occurrence of `sep`, `none` when `sep` does not occur. -/
def rsplitLast (sep : Char) : List Char → Option (List Char × List Char)
  | [] => none
  | c :: cs =>
    match rsplitLast sep cs with
    | some (pre, post) => some (c :: pre, post)
    | none => if c = sep then some ([], cs) else none

/-- Rust `s.rsplitn(2, sep).collect()`: at most two pieces, rightmost first. -/
def rsplitn2 (sep : Char) (s : String) : List String :=
  match rsplitLast sep s.data with
  | some (pre, post) => [String.mk post, String.mk pre]
  | none => [s]

/-- `device.rs`: `struct Device { conn, object_path }` (the opaque shared
connection handle is not modelled; see the header comment). -/
structure Device where
  object_path : String
deriving DecidableEq, Repr

/-- `Device::new`: stores the given object path verbatim. -/
def Device.new (object_path : String) : Device :=
  { object_path }

/-- `Device::adapter_object_path`:
`self.object_path.rsplitn(2, '/').last().unwrap()` — the last element of the
(never empty) `rsplitn` sequence, i.e. everything before the final `'/'`, or
the whole path when it has no `'/'`. -/
def Device.adapter_object_path (d : Device) : String :=
  match rsplitLast '/' d.object_path.data with
  | some (pre, _) => String.mk pre
  | none => d.object_path

/-- `adapter.rs`: `struct Adapter { conn, object_path }`. -/
structure Adapter where
  object_path : String
deriving DecidableEq, Repr

/-- `common.rs`: `SERVICE_NAME`. -/
def SERVICE_NAME : String := "org.bluez"

/-- `adapter.rs`: `ADAPTER_INTERFACE`. -/
def ADAPTER_INTERFACE : String := "org.bluez.Adapter1"

/-- `device.rs`: `DEVICE_INTERFACE`. -/
def DEVICE_INTERFACE : String := "org.bluez.Device1"

/-- `common.rs` lines 11-12: normalize the root path to end with `"/"`. -/
def normalizeRoot (path : String) : String :=
  if strEndsWith path "/" then path else path ++ "/"

/-- Inner loop of `dbus_get_managed_objects` (`common.rs` lines 28-35): walk
one entry's interface list; push the entry's path once per matching
interface name, provided the path starts with the normalized root. -/
def walkIfaces (objPath npath iface : String) : List MessageItem → Panics (List String)
  | [] => .ok []
  | oi :: rest =>
    match oi.asPair with
    | none => .panicked
    | some (nameIt, _) =>
      match nameIt.asStr with
      | none => .panicked
      | some obj_iface_name =>
        match walkIfaces objPath npath iface rest with
        | .panicked => .panicked
        | .ok more =>
          .ok ((if obj_iface_name == iface && strStartsWith objPath npath
                then [objPath] else []) ++ more)

/-- Outer loop of `dbus_get_managed_objects` (`common.rs` lines 23-36): each
entry is a dict-entry of an object path and an array of interfaces. -/
def walkObjects (npath iface : String) : List MessageItem → Panics (List String)
  | [] => .ok []
  | obj :: rest =>
    match obj.asPair with
    | none => .panicked
    | some (p, ifs) =>
      match p.asStr with
      | none => .panicked
      | some obj_path =>
        match ifs.asArray with
        | none => .panicked
        | some obj_ifaces =>
          match walkIfaces obj_path npath iface obj_ifaces with
          | .panicked => .panicked
          | .ok here =>
            match walkObjects npath iface rest with
            | .panicked => .panicked
            | .ok more => .ok (here ++ more)

/-- `common.rs`: `dbus_get_managed_objects` — normalizes the root path, then
walks the reply's (path, interfaces) entries. The constructor `f` only ever
receives the object path, so the result is modelled as the list of matched
paths (handle construction is `Device.new`/`Adapter.mk` on each). The
transport call itself is external; `objects` is its decoded reply body. -/
def dbus_get_managed_objects (path iface : String) (objects : List MessageItem) :
    Panics (List String) :=
  walkObjects (normalizeRoot path) iface objects

/-- `dbus::ConnectionItem` as consumed by the discovery loop: a signal with
member name, emitting path and argument list, or any non-signal item (the
`Nothing`/method items the `if let` skips). Each item is paired, in the
session stream, with the whole seconds elapsed when its iteration's timeout
check runs (`now.elapsed().as_secs()`). -/
inductive ConnectionItem where
  | signal (member : String) (path : String) (args : List MessageItem)
  | nonSignal

/-- Observable bus-side effects of one `start_discovery_session` run, in
order of occurrence. `deviceFound p` is an invocation of the caller's
`on_device_found` callback with the device handle at path `p`. -/
inductive BusAction where
  | addMatch (filter : String)
  | startDiscovery
  | deviceFound (path : String)
  | stopDiscovery
  | removeMatch (filter : String)
deriving DecidableEq, Repr

/-- How the `'outer` loop of `start_discovery_session` ended. -/
inductive LoopExit where
  | stopped                 -- `break 'outer` on `Discovering = false`
  | timedOut                -- duration elapsed and `StopDiscovery` succeeded
  | stopErr (e : BtError)   -- duration elapsed and `try!(stop_discovery())` returned the error
  | panicked                -- an `unwrap` in the loop body panicked
  | running                 -- modelled signal stream exhausted with the loop still live
deriving DecidableEq, Repr

/-- Result of one whole `start_discovery_session` call. -/
inductive SessionResult where
  | ok
  | err (e : BtError)
  | panicked
  | running
deriving DecidableEq, Repr

/-- Outcome of processing one signal inside the loop body. -/
inductive SigStep where
  | cont
  | brk
  | panicked
deriving DecidableEq, Repr

/-- `adapter.rs` lines 109-119: scan a `PropertiesChanged` property list for
a `Discovering` entry whose (variant-wrapped) boolean is `false`. -/
def scanProps : List MessageItem → SigStep
  | [] => .cont
  | p :: rest =>
    match p.asPair with
    | none => .panicked
    | some (nameIt, val) =>
      match nameIt.asStr with
      | none => .panicked
      | some name =>
        if name == "Discovering" then
          match val.asVariant with
          | none => .panicked
          | some inner =>
            match inner.asBool with
            | none => .panicked
            | some v => if !v then .brk else scanProps rest
        else scanProps rest

/-- `adapter.rs` lines 132-142: scan an `InterfacesAdded` dictionary; for
each entry naming the device interface, construct `Device::new(conn, obj_path)`
and report it iff its derived parent-adapter path equals the session
adapter's path. Returns the reported paths (in order) and whether a
malformed entry panicked first. -/
def scanIfacesDict (adapterPath obj_path : String) :
    List MessageItem → List String × SigStep
  | [] => ([], .cont)
  | kv :: rest =>
    match kv.asPair with
    | none => ([], .panicked)
    | some (ifaceIt, _) =>
      match ifaceIt.asStr with
      | none => ([], .panicked)
      | some iface =>
        let found :=
          if iface == DEVICE_INTERFACE &&
             (Device.new obj_path).adapter_object_path == adapterPath
          then [obj_path] else []
        let res := scanIfacesDict adapterPath obj_path rest
        (found ++ res.1, res.2)

/-- `adapter.rs` lines 96-144: classify and process one connection item.
Returns the `on_device_found` invocations it caused and the loop outcome. -/
def processItem (adapterPath : String) : ConnectionItem → List String × SigStep
  | .nonSignal => ([], .cont)
  | .signal member path args =>
    if member == "PropertiesChanged" && path == adapterPath then
      match args[0]? with
      | none => ([], .panicked)
      | some it0 =>
        match it0.asStr with
        | none => ([], .panicked)
        | some iface =>
          if iface == ADAPTER_INTERFACE then
            match args[1]? with
            | none => ([], .panicked)
            | some it1 =>
              match it1.asArray with
              | none => ([], .panicked)
              | some props => ([], scanProps props)
          else ([], .cont)
    else if member == "InterfacesAdded" then
      match args[0]? with
      | none => ([], .panicked)
      | some it0 =>
        match it0.asStr with
        | none => ([], .panicked)
        | some obj_path =>
          match args[1]? with
          | none => ([], .panicked)
          | some it1 =>
            match it1.asArray with
            | none => ([], .panicked)
            | some dict => scanIfacesDict adapterPath obj_path dict
    else ([], .cont)

/-- The `'outer: for i in conn.iter(100)` loop (`adapter.rs` lines 95-150):
process each item, then run the duration check (`duration > 0 &&
now.elapsed().as_secs() >= duration`), which on expiry issues
`try!(self.stop_discovery())` and breaks. `stopRes` is the external result
of the `StopDiscovery` call; the stream is a finite prefix of the live
signal iterator. -/
def discoveryLoop (adapterPath : String) (duration : Nat)
    (stopRes : Except BtError Unit) :
    List (ConnectionItem × Nat) → List BusAction × LoopExit
  | [] => ([], .running)
  | (item, elapsed) :: rest =>
    let step := processItem adapterPath item
    let acts := step.1.map BusAction.deviceFound
    match step.2 with
    | .panicked => (acts, .panicked)
    | .brk => (acts, .stopped)
    | .cont =>
      if duration > 0 && elapsed ≥ duration then
        match stopRes with
        | .error e => (acts ++ [BusAction.stopDiscovery], .stopErr e)
        | .ok _ => (acts ++ [BusAction.stopDiscovery], .timedOut)
      else
        let res := discoveryLoop adapterPath duration stopRes rest
        (acts ++ res.1, res.2)

/-- `adapter.rs` line 85: the `InterfacesAdded` match rule. -/
def filter1 : String :=
  "sender='org.bluez',interface='org.freedesktop.DBus.ObjectManager',member='InterfacesAdded'"

/-- `adapter.rs` line 86: the `PropertiesChanged` match rule. -/
def filter2 : String :=
  "sender='org.bluez',interface='org.freedesktop.DBus.Properties',member='PropertiesChanged'"

/-- External bus behaviour for one `start_discovery_session` run: results of
the `add_match`/`remove_match`/`StartDiscovery`/`StopDiscovery` calls, and
the connection-item stream the loop observes. -/
structure BusEnv where
  addMatchRes : String → Except BtError Unit
  startDiscoveryRes : Except BtError Unit
  stopDiscoveryRes : Except BtError Unit
  removeMatchRes : String → Except BtError Unit
  stream : List (ConnectionItem × Nat)

/-- `Adapter::start_discovery_session` (`adapter.rs` lines 82-156), as the
ordered trace of bus actions it performs plus its result. Each `try!` that
fails returns at once with the actions already taken. -/
def start_discovery_session (env : BusEnv) (adapterPath : String)
    (duration : Nat) : List BusAction × SessionResult :=
  match env.addMatchRes filter1 with
  | .error e => ([.addMatch filter1], .err e)
  | .ok _ =>
  match env.addMatchRes filter2 with
  | .error e => ([.addMatch filter1, .addMatch filter2], .err e)
  | .ok _ =>
  match env.startDiscoveryRes with
  | .error e => ([.addMatch filter1, .addMatch filter2, .startDiscovery], .err e)
  | .ok _ =>
    let res := discoveryLoop adapterPath duration env.stopDiscoveryRes env.stream
    let pre := [BusAction.addMatch filter1, BusAction.addMatch filter2,
                BusAction.startDiscovery] ++ res.1
    match res.2 with
    | .panicked => (pre, .panicked)
    | .running => (pre, .running)
    | .stopErr e => (pre, .err e)
    | _ =>
      match env.removeMatchRes filter1 with
      | .error e => (pre ++ [.removeMatch filter1], .err e)
      | .ok _ =>
        match env.removeMatchRes filter2 with
        | .error e => (pre ++ [.removeMatch filter1, .removeMatch filter2], .err e)
        | .ok _ => (pre ++ [.removeMatch filter1, .removeMatch filter2], .ok)

/-- Count the `removeMatch` actions in a trace. -/
def countRemoveMatch (acts : List BusAction) : Nat :=
  acts.countP (fun a => match a with | .removeMatch _ => true | _ => false)

/-- Count the `stopDiscovery` actions in a trace. -/
def countStopDiscovery (acts : List BusAction) : Nat :=
  acts.countP (fun a => match a with | .stopDiscovery => true | _ => false)

/-! ### Concrete inputs used by the theorems below -/

/-- A required device field (per `DeviceProperties::new`'s `unwrap`s) is
missing or carries a mismatched type. -/
def deviceRequiredBad (d : PropsMap) : Prop :=
  _get_propStr d "Address" = none ∨ _get_propStr d "Alias" = none ∨
  _get_propBool d "Paired" = none ∨ _get_propBool d "Connected" = none ∨
  _get_propBool d "Trusted" = none ∨ _get_propBool d "Blocked" = none ∨
  _get_propBool d "LegacyPairing" = none

/-- A required adapter field (per `AdapterProperties::new`'s `unwrap`s,
`UUIDs` aside) is missing or carries a mismatched type. -/
def adapterRequiredBad (d : PropsMap) : Prop :=
  _get_propStr d "Address" = none ∨ _get_propStr d "Name" = none ∨
  _get_propStr d "Alias" = none ∨ _get_propU32 d "Class" = none ∨
  _get_propBool d "Powered" = none ∨ _get_propBool d "Discoverable" = none ∨
  _get_propU32 d "DiscoverableTimeout" = none ∨ _get_propBool d "Pairable" = none ∨
  _get_propU32 d "PairableTimeout" = none ∨ _get_propBool d "Discovering" = none

/-- An adapter reply carrying every required scalar field but no `UUIDs`
entry. -/
def adapterDictNoUUIDs : PropsMap :=
  [("Address", .str "00:11:22:33:44:55"), ("Name", .str "hci0"),
   ("Alias", .str "hci0"), ("Class", .uint32 0), ("Powered", .bool true),
   ("Discoverable", .bool false), ("DiscoverableTimeout", .uint32 0),
   ("Pairable", .bool true), ("PairableTimeout", .uint32 0),
   ("Discovering", .bool false)]

/-- A device reply with the required fields present and no `UUIDs` entry. -/
def deviceDictNoUUIDs : PropsMap :=
  [("Address", .str "AA:BB:CC:DD:EE:FF"), ("Alias", .str "dev"),
   ("Paired", .bool false), ("Connected", .bool false),
   ("Trusted", .bool false), ("Blocked", .bool false),
   ("LegacyPairing", .bool false)]

/-- Bus environment in which both `add_match` calls succeed and
`StartDiscovery` fails. -/
def envStartFails : BusEnv :=
  { addMatchRes := fun _ => .ok ()
    startDiscoveryRes := .error (.DBus "org.bluez.Error.NotReady")
    stopDiscoveryRes := .ok ()
    removeMatchRes := fun _ => .ok ()
    stream := [] }

/-- Environment: discovery starts, the first poll item arrives after the
1-second duration bound has elapsed, and `StopDiscovery` fails. -/
def envStopFails : BusEnv :=
  { addMatchRes := fun _ => .ok ()
    startDiscoveryRes := .ok ()
    stopDiscoveryRes := .error (.DBus "org.bluez.Error.Failed")
    removeMatchRes := fun _ => .ok ()
    stream := [(.nonSignal, 5)] }

/-- Environment: the timed-out stop succeeds but unregistering the first
filter fails. -/
def envRemove1Fails : BusEnv :=
  { addMatchRes := fun _ => .ok ()
    startDiscoveryRes := .ok ()
    stopDiscoveryRes := .ok ()
    removeMatchRes := fun f =>
      if f == filter1 then .error (.DBus "org.freedesktop.DBus.Error.MatchRuleNotFound")
      else .ok ()
    stream := [(.nonSignal, 5)] }

/-- A bus environment whose stream carries one `InterfacesAdded` signal for a
device under `/org/bluez/hci0`. -/
def envDevFound : BusEnv :=
  { addMatchRes := fun _ => .ok ()
    startDiscoveryRes := .ok ()
    stopDiscoveryRes := .ok ()
    removeMatchRes := fun _ => .ok ()
    stream := [(.signal "InterfacesAdded" "/"
      [.str "/org/bluez/hci0/dev_AA_BB",
       .array [.dictEntry (.str "org.bluez.Device1") (.variant (.bool false))]], 0)] }

/-- A one-item stream whose signal reports `Discovering = false` on the
adapter's own path. -/
def streamDiscoveringFalse : List (ConnectionItem × Nat) :=
  [(.signal "PropertiesChanged" "/org/bluez/hci0"
     [.str "org.bluez.Adapter1",
      .array [.dictEntry (.str "Discovering") (.variant (.bool false))]], 3)]

/-! ### Shared auxiliary lemmas -/

theorem Panics.bindOp_congr_right {α β : Type} (x : Panics α) (f : α → Panics β)
    (hf : ∀ a, f a = .panicked) : x >>= f = .panicked := by
  cases x <;> simp [Bind.bind, Panics.bind, hf]

theorem Panics.ok_of_bindOp {α β : Type} {x : Panics α} {f : α → Panics β} {b : β}
    (h : x >>= f = .ok b) : ∃ a, x = .ok a ∧ f a = .ok b := by
  cases x with
  | ok a => exact ⟨a, rfl, h⟩
  | panicked => simp [Bind.bind, Panics.bind] at h

theorem MessageItem.asPair_some {x : MessageItem} {a b : MessageItem}
    (h : x.asPair = some (a, b)) : x = .dictEntry a b := by
  cases x <;> simp_all [MessageItem.asPair]

theorem MessageItem.asStr_some {x : MessageItem} {s : String}
    (h : x.asStr = some s) : x = .str s := by
  cases x <;> simp_all [MessageItem.asStr]

theorem MessageItem.asVariant_some {x : MessageItem} {v : MessageItem}
    (h : x.asVariant = some v) : x = .variant v := by
  cases x <;> simp_all [MessageItem.asVariant]

theorem MessageItem.asBool_some {x : MessageItem} {b : Bool}
    (h : x.asBool = some b) : x = .bool b := by
  cases x <;> simp_all [MessageItem.asBool]

theorem MessageItem.asArray_some {x : MessageItem} {xs : List MessageItem}
    (h : x.asArray = some xs) : x = .array xs := by
  cases x <;> simp_all [MessageItem.asArray]

/-- Structure of `rsplitLast`: `none` means the separator does not occur;
`some (pre, post)` decomposes the list around its last separator. -/
theorem rsplitLast_spec (sep : Char) (l : List Char) :
    (rsplitLast sep l = none → sep ∉ l) ∧
    (∀ pre post, rsplitLast sep l = some (pre, post) →
      l = pre ++ sep :: post ∧ sep ∉ post) := by
  induction l with
  | nil => simp [rsplitLast]
  | cons c cs ih =>
    cases h : rsplitLast sep cs with
    | none =>
      by_cases hc : c = sep
      · refine ⟨?_, ?_⟩
        · intro hnone
          simp [rsplitLast, h, hc] at hnone
        · intro pre post hsome
          simp [rsplitLast, h, hc] at hsome
          obtain ⟨hpre, hpost⟩ := hsome
          subst hpre; subst hpost
          exact ⟨by simp [hc], ih.1 h⟩
      · refine ⟨?_, ?_⟩
        · intro _
          simp only [List.mem_cons]
          rintro (rfl | hm)
          · exact hc rfl
          · exact ih.1 h hm
        · intro pre post hsome
          simp [rsplitLast, h, hc] at hsome
    | some pp =>
      obtain ⟨pre0, post0⟩ := pp
      refine ⟨?_, ?_⟩
      · intro hnone
        simp [rsplitLast, h] at hnone
      · intro pre post hsome
        simp [rsplitLast, h] at hsome
        obtain ⟨hpre, hpost⟩ := hsome
        obtain ⟨h1, h2⟩ := (ih.2 pre0 post0 h)
        subst hpre; subst hpost
        constructor
        · simp [h1]
        · exact h2

/-- `adapter_object_path` agrees with the last element of the `rsplitn(2, '/')`
sequence, which always exists (so the source's `.last().unwrap()` cannot
panic). -/
theorem rsplitn2_getLast (s : String) :
    (rsplitn2 '/' s).getLast? = some (Device.new s).adapter_object_path := by
  unfold rsplitn2 Device.adapter_object_path Device.new
  cases h : rsplitLast '/' s.data with
  | none => rfl
  | some pp => cases pp; rfl

/-- When the path has no `'/'`, `adapter_object_path` is the identity. -/
theorem adapter_object_path_no_sep (s : String) (hs : '/' ∉ s.data) :
    (Device.new s).adapter_object_path = s := by
  unfold Device.adapter_object_path Device.new
  cases h : rsplitLast '/' s.data with
  | none => rfl
  | some pp =>
    obtain ⟨pre, post⟩ := pp
    exact absurd ((rsplitLast_spec '/' s.data).2 pre post h).1 (by
      intro hl; exact hs (hl ▸ by simp))

/-- When the path contains `'/'`, `adapter_object_path` is everything before
the final `'/'`: the path decomposes as `parent ++ "/" ++ seg` with `seg`
free of separators. -/
theorem adapter_object_path_sep (s : String) (hs : '/' ∈ s.data) :
    ∃ seg : List Char, '/' ∉ seg ∧
      s.data = (Device.new s).adapter_object_path.data ++ '/' :: seg := by
  unfold Device.adapter_object_path Device.new
  cases h : rsplitLast '/' s.data with
  | none => exact absurd hs ((rsplitLast_spec '/' s.data).1 h)
  | some pp =>
    obtain ⟨pre, post⟩ := pp
    obtain ⟨h1, h2⟩ := (rsplitLast_spec '/' s.data).2 pre post h
    exact ⟨post, h2, by simpa using h1⟩

/-- C10 — `Device::adapter_object_path` is total (the `rsplitn` list is never
empty, so `.last().unwrap()` cannot fail) and returns the prefix before the
final `'/'`: `"/org/bluez/hci0/dev_AA_BB" ↦ "/org/bluez/hci0"`,
`"/dev_X" ↦ ""`, and a path without `'/'` is returned unchanged. -/
theorem adapter_object_path_total_and_correct :
    ((Device.new "/org/bluez/hci0/dev_AA_BB").adapter_object_path = "/org/bluez/hci0") ∧
    ((Device.new "/dev_X").adapter_object_path = "") ∧
    (∀ s : String, (rsplitn2 '/' s).getLast? = some (Device.new s).adapter_object_path) ∧
    (∀ s : String, '/' ∉ s.data → (Device.new s).adapter_object_path = s) ∧
    (∀ s : String, '/' ∈ s.data → ∃ seg : List Char, '/' ∉ seg ∧
        s.data = (Device.new s).adapter_object_path.data ++ '/' :: seg) :=
  ⟨by rfl, by rfl, rsplitn2_getLast, adapter_object_path_no_sep, adapter_object_path_sep⟩

/-- Witness for C10 at concrete inputs: `"nodash"` (no separator) is returned
unchanged, and `"/a/b"` decomposes around its last separator. -/
theorem adapter_object_path_total_and_correct_witness :
    ((Device.new "nodash").adapter_object_path = "nodash") ∧
    (∃ seg : List Char, '/' ∉ seg ∧
      "/a/b".data = (Device.new "/a/b").adapter_object_path.data ++ '/' :: seg) :=
  ⟨adapter_object_path_total_and_correct.2.2.2.1 "nodash" (by decide),
   adapter_object_path_total_and_correct.2.2.2.2 "/a/b" (by decide)⟩

/-- C8 — the typed-value decoder never coerces: a string-payload Bus Value
decodes as `none` for every integer shape (and for booleans), and decodes as
a string to exactly the original content. -/
theorem get_prop_no_coercion :
    ∀ (d : PropsMap) (nm s : String), d.get nm = some (.str s) →
      _get_propU32 d nm = none ∧ _get_propU16 d nm = none ∧
      _get_propI16 d nm = none ∧ _get_propBool d nm = none ∧
      _get_propStr d nm = some s := by
  intro d nm s h
  simp [_get_propU32, _get_propU16, _get_propI16, _get_propBool, _get_propStr, h,
        MessageItem.asU32, MessageItem.asU16, MessageItem.asI16, MessageItem.asBool,
        MessageItem.asStr]

/-- Witness for C8: a concrete one-entry dictionary holding the string "hi". -/
theorem get_prop_no_coercion_witness :
    _get_propU32 [("X", .str "hi")] "X" = none ∧
    _get_propU16 [("X", .str "hi")] "X" = none ∧
    _get_propI16 [("X", .str "hi")] "X" = none ∧
    _get_propBool [("X", .str "hi")] "X" = none ∧
    _get_propStr [("X", .str "hi")] "X" = some "hi" :=
  get_prop_no_coercion [("X", .str "hi")] "X" "hi" (by rfl)

/-! ### C3 / C7: property-snapshot failure behaviour -/



theorem deviceNew_panics_of_requiredBad (d : PropsMap) (h : deviceRequiredBad d) :
    DeviceProperties.new d = .panicked := by
  unfold DeviceProperties.new
  rcases h with h | h | h | h | h | h | h <;>
    (simp only [h, Option.unwrapP]
     repeat (first
       | rfl
       | (apply Panics.bindOp_congr_right; intro _)))

theorem adapterNew_panics_of_requiredBad (d : PropsMap) (h : adapterRequiredBad d) :
    AdapterProperties.new d = .panicked := by
  unfold AdapterProperties.new
  rcases h with h | h | h | h | h | h | h | h | h | h <;>
    (simp only [h, Option.unwrapP]
     repeat (first
       | rfl
       | (apply Panics.bindOp_congr_right; intro _)))

/-- C3, counterexample — a reply dictionary missing the required fields makes
`get_properties` abort via panic (`unwrap` on `None`), not return an error
result: the claim's "surfaced as an error result rather than aborting the
process" is false on the code. -/
theorem get_properties_missing_required_panics :
    (Device.get_properties (.ok [])).isPanic = true ∧
    (Adapter.get_properties (.ok [])).isPanic = true := by
  exact ⟨by rfl, by rfl⟩

/-- C3, amended — a property dictionary with a missing or type-mismatched
required field makes snapshot construction fail entirely: no partial snapshot
is ever produced. The failure is a panic of the construction (and hence of
`get_properties` on an `Ok` bus reply), not an error result; only
transport-level failures surface as `Err`. -/
theorem snapshot_required_field_failure :
    ∀ d : PropsMap,
      (deviceRequiredBad d → DeviceProperties.new d = .panicked ∧
        Device.get_properties (.ok d) = .panicked) ∧
      (adapterRequiredBad d → AdapterProperties.new d = .panicked ∧
        Adapter.get_properties (.ok d) = .panicked) := by
  intro d
  constructor
  · intro h
    have hd := deviceNew_panics_of_requiredBad d h
    exact ⟨hd, by simp [Device.get_properties, hd]⟩
  · intro h
    have ha := adapterNew_panics_of_requiredBad d h
    exact ⟨ha, by simp [Adapter.get_properties, ha]⟩

/-- Witness for C3 (amended) at the empty dictionary. -/
theorem snapshot_required_field_failure_witness :
    (DeviceProperties.new [] = .panicked ∧ Device.get_properties (.ok []) = .panicked) ∧
    (AdapterProperties.new [] = .panicked ∧ Adapter.get_properties (.ok []) = .panicked) :=
  ⟨(snapshot_required_field_failure []).1 (Or.inl (by rfl)),
   (snapshot_required_field_failure []).2 (Or.inl (by rfl))⟩


/-- C7, counterexample — for the adapter snapshot, `UUIDs` is NOT optional:
with every other required field present but `UUIDs` absent, construction
panics instead of succeeding with an empty UUID list. -/
theorem adapter_uuids_not_optional :
    AdapterProperties.new adapterDictNoUUIDs = .panicked ∧
    ∀ p : AdapterProperties, AdapterProperties.new adapterDictNoUUIDs ≠ .ok p := by
  exact ⟨by rfl, fun p h => by simp [show AdapterProperties.new adapterDictNoUUIDs = .panicked from rfl] at h⟩

/-- C7, amended — `UUIDs` is optional only for the device snapshot: an absent
`UUIDs` entry leaves device construction successful with an empty UUID list,
while adapter construction `unwrap`s the entry and panics whenever it is
absent. -/
theorem uuids_optional_device_required_adapter :
    ∀ d : PropsMap,
      (d.get "UUIDs" = none → AdapterProperties.new d = .panicked) ∧
      (∀ p : DeviceProperties, d.get "UUIDs" = none →
        DeviceProperties.new d = .ok p → p.uuids = []) := by
  intro d
  constructor
  · intro h
    unfold AdapterProperties.new
    have harr : _get_propArr d "UUIDs" = none := by
      simp [_get_propArr, h]
    simp only [harr, Option.unwrapP]
    repeat (first
      | rfl
      | (apply Panics.bindOp_congr_right; intro _))
  · intro p h hok
    unfold DeviceProperties.new at hok
    have harr : _get_propArr d "UUIDs" = none := by
      simp [_get_propArr, h]
    simp only [harr, Option.getD_none] at hok
    obtain ⟨a1, -, hok⟩ := Panics.ok_of_bindOp hok
    obtain ⟨a2, -, hok⟩ := Panics.ok_of_bindOp hok
    obtain ⟨u, hu, hok⟩ := Panics.ok_of_bindOp hok
    obtain ⟨b1, -, hok⟩ := Panics.ok_of_bindOp hok
    obtain ⟨b2, -, hok⟩ := Panics.ok_of_bindOp hok
    obtain ⟨b3, -, hok⟩ := Panics.ok_of_bindOp hok
    obtain ⟨b4, -, hok⟩ := Panics.ok_of_bindOp hok
    obtain ⟨b5, -, hok⟩ := Panics.ok_of_bindOp hok
    simp [decodeStrList] at hu
    simp only [pure, Panics.ok.injEq] at hok
    subst hok
    simp [hu]


/-- Witness for C7 (amended): on `deviceDictNoUUIDs`, device construction
succeeds and decodes an empty UUID list. -/
theorem uuids_optional_device_required_adapter_witness :
    { address := "AA:BB:CC:DD:EE:FF", name := none, «alias» := "dev",
      icon := none, «class» := none, appearance := none, uuids := [],
      paired := false, connected := false, trusted := false, blocked := false,
      legacy_pairing := false, modalias := none,
      rssi := none : DeviceProperties }.uuids = ([] : List String) :=
  (uuids_optional_device_required_adapter deviceDictNoUUIDs).2
    { address := "AA:BB:CC:DD:EE:FF", name := none, «alias» := "dev",
      icon := none, «class» := none, appearance := none, uuids := [],
      paired := false, connected := false, trusted := false, blocked := false,
      legacy_pairing := false, modalias := none, rssi := none }
    (by rfl) (by rfl)

/-! ### C1 / C2: discovery-session cleanup behaviour -/


/-- C1 — evaluation at the failing input: with both filters registered and
`StartDiscovery` failing, `start_discovery_session` returns the error having
performed NO `remove_match` call: both subscriptions are left dangling,
contradicting the claimed cleanup-on-error contract. -/
theorem start_failure_leaves_filters_registered :
    start_discovery_session envStartFails "/org/bluez/hci0" 0 =
      ([.addMatch filter1, .addMatch filter2, .startDiscovery],
       .err (.DBus "org.bluez.Error.NotReady")) ∧
    countRemoveMatch
      (start_discovery_session envStartFails "/org/bluez/hci0" 0).1 = 0 := by
  exact ⟨by rfl, by rfl⟩



/-- C2 — evaluation at the failing inputs. (a) On the timed-out path where
`StopDiscovery` fails, the session returns that error with ZERO
`remove_match` calls: both filters stay registered. (b) When unregistering
the first filter fails, the second filter is never unregistered (one
`remove_match` call, not two). Both contradict "unregisters both signal
filters exactly once on every exit". -/
theorem loop_exit_skips_unregistration :
    (start_discovery_session envStopFails "/org/bluez/hci0" 1 =
      ([.addMatch filter1, .addMatch filter2, .startDiscovery, .stopDiscovery],
       .err (.DBus "org.bluez.Error.Failed")) ∧
     countRemoveMatch
       (start_discovery_session envStopFails "/org/bluez/hci0" 1).1 = 0) ∧
    (start_discovery_session envRemove1Fails "/org/bluez/hci0" 1 =
      ([.addMatch filter1, .addMatch filter2, .startDiscovery, .stopDiscovery,
        .removeMatch filter1],
       .err (.DBus "org.freedesktop.DBus.Error.MatchRuleNotFound")) ∧
     countRemoveMatch
       (start_discovery_session envRemove1Fails "/org/bluez/hci0" 1).1 = 1) := by
  refine ⟨⟨by rfl, by rfl⟩, ⟨?_, ?_⟩⟩ <;> rfl

/-! ### C4 / C9: enumeration soundness -/

theorem walkIfaces_mem (op npath iface : String) :
    ∀ (l : List MessageItem) (here : List String),
      walkIfaces op npath iface l = .ok here → ∀ p ∈ here,
        p = op ∧ strStartsWith op npath = true ∧
        ∃ kv ∈ l, ∃ r, kv = MessageItem.dictEntry (.str iface) r := by
  intro l
  induction l with
  | nil =>
    intro here h p hp
    simp only [walkIfaces, Panics.ok.injEq] at h
    subst h; simp at hp
  | cons oi rest ih =>
    intro here h p hp
    simp only [walkIfaces] at h
    cases hpair : oi.asPair with
    | none => simp [hpair] at h
    | some pr =>
      obtain ⟨nameIt, rest2⟩ := pr
      simp only [hpair] at h
      cases hname : nameIt.asStr with
      | none => simp [hname] at h
      | some obj_iface_name =>
        simp only [hname] at h
        cases hrec : walkIfaces op npath iface rest with
        | panicked => simp [hrec] at h
        | ok more =>
          simp only [hrec, Panics.ok.injEq] at h
          subst h
          rcases List.mem_append.mp hp with hp | hp
          · by_cases hc : (obj_iface_name == iface && strStartsWith op npath) = true
            · rw [if_pos hc] at hp
              simp only [List.mem_singleton] at hp
              subst hp
              obtain ⟨h1, h2⟩ := (Bool.and_eq_true _ _).mp hc
              refine ⟨rfl, h2, oi, List.mem_cons_self _ _, rest2, ?_⟩
              have hn : nameIt = .str obj_iface_name := MessageItem.asStr_some hname
              have hoi : oi = .dictEntry nameIt rest2 := MessageItem.asPair_some hpair
              rw [hoi, hn, eq_of_beq h1]
            · rw [if_neg hc] at hp; simp at hp
          · obtain ⟨hpo, hsw, kv, hkv, r, hr⟩ := ih more hrec p hp
            exact ⟨hpo, hsw, kv, List.mem_cons_of_mem _ hkv, r, hr⟩

theorem walkObjects_mem (npath iface : String) :
    ∀ (objs : List MessageItem) (res : List String),
      walkObjects npath iface objs = .ok res → ∀ p ∈ res,
        strStartsWith p npath = true ∧
        ∃ ifs : List MessageItem,
          MessageItem.dictEntry (.str p) (.array ifs) ∈ objs ∧
          ∃ kv ∈ ifs, ∃ r, kv = MessageItem.dictEntry (.str iface) r := by
  intro objs
  induction objs with
  | nil =>
    intro res h p hp
    simp only [walkObjects, Panics.ok.injEq] at h
    subst h; simp at hp
  | cons obj rest ih =>
    intro res h p hp
    simp only [walkObjects] at h
    cases hpair : obj.asPair with
    | none => simp [hpair] at h
    | some pr =>
      obtain ⟨pitem, ifsItem⟩ := pr
      simp only [hpair] at h
      cases hstr : pitem.asStr with
      | none => simp [hstr] at h
      | some obj_path =>
        simp only [hstr] at h
        cases harr : ifsItem.asArray with
        | none => simp [harr] at h
        | some obj_ifaces =>
          simp only [harr] at h
          cases hifs : walkIfaces obj_path npath iface obj_ifaces with
          | panicked => simp [hifs] at h
          | ok here =>
            simp only [hifs] at h
            cases hrec : walkObjects npath iface rest with
            | panicked => simp [hrec] at h
            | ok more =>
              simp only [hrec, Panics.ok.injEq] at h
              subst h
              rcases List.mem_append.mp hp with hp | hp
              · obtain ⟨hpo, hsw, kv, hkv, r, hr⟩ :=
                  walkIfaces_mem obj_path npath iface obj_ifaces here hifs p hp
                subst hpo
                refine ⟨hsw, obj_ifaces, ?_, kv, hkv, r, hr⟩
                have h1 : pitem = .str p := MessageItem.asStr_some hstr
                have h2 : ifsItem = .array obj_ifaces := MessageItem.asArray_some harr
                have hobj : obj = .dictEntry pitem ifsItem := MessageItem.asPair_some hpair
                rw [hobj, h1, h2]
                exact List.mem_cons_self _ _
              · obtain ⟨hsw, ifs, hmem, hkv⟩ := ih more hrec p hp
                exact ⟨hsw, ifs, List.mem_cons_of_mem _ hmem, hkv⟩

/-- C4 — enumeration soundness: every path in a successful
`dbus_get_managed_objects` result equals the root or starts with the
normalized root (root plus the path separator when the root does not already
end with one), and came from an entry whose interface set contains the
target interface; a sibling path such as `/org/bluez2` under root
`/org/bluez` is never returned (second conjunct). -/
theorem managed_objects_path_and_interface :
    (∀ (path iface : String) (objects : List MessageItem) (res : List String),
      dbus_get_managed_objects path iface objects = .ok res → ∀ p ∈ res,
        (p = path ∨ strStartsWith p (normalizeRoot path) = true) ∧
        ∃ ifs : List MessageItem,
          MessageItem.dictEntry (.str p) (.array ifs) ∈ objects ∧
          ∃ kv ∈ ifs, ∃ r, kv = MessageItem.dictEntry (.str iface) r) ∧
    dbus_get_managed_objects "/org/bluez" ADAPTER_INTERFACE
      [.dictEntry (.str "/org/bluez2")
        (.array [.dictEntry (.str ADAPTER_INTERFACE) (.array [])])] = .ok [] := by
  constructor
  · intro path iface objects res h p hp
    obtain ⟨hsw, hrest⟩ := walkObjects_mem (normalizeRoot path) iface objects res h p hp
    exact ⟨Or.inr hsw, hrest⟩
  · rfl

/-- Witness for C4: a concrete enumeration with root `/org/bluez` returning
the nested adapter path `/org/bluez/hci0`. -/
theorem managed_objects_path_and_interface_witness :
    ("/org/bluez/hci0" = "/org/bluez" ∨
      strStartsWith "/org/bluez/hci0" (normalizeRoot "/org/bluez") = true) ∧
    ∃ ifs : List MessageItem,
      MessageItem.dictEntry (.str "/org/bluez/hci0") (.array ifs) ∈
        [MessageItem.dictEntry (.str "/org/bluez/hci0")
          (.array [MessageItem.dictEntry (.str ADAPTER_INTERFACE) (.array [])])] ∧
      ∃ kv ∈ ifs, ∃ r, kv = MessageItem.dictEntry (.str ADAPTER_INTERFACE) r :=
  managed_objects_path_and_interface.1 "/org/bluez" ADAPTER_INTERFACE
    [.dictEntry (.str "/org/bluez/hci0")
      (.array [.dictEntry (.str ADAPTER_INTERFACE) (.array [])])]
    ["/org/bluez/hci0"] (by rfl) "/org/bluez/hci0" (by simp)

/-! ### C5 / C6: discovery-loop behaviour -/

theorem scanIfacesDict_found (ap op : String) :
    ∀ (l : List MessageItem) (p : String), p ∈ (scanIfacesDict ap op l).1 →
      (Device.new p).adapter_object_path = ap := by
  intro l
  induction l with
  | nil => intro p hp; simp [scanIfacesDict] at hp
  | cons kv rest ih =>
    intro p hp
    simp only [scanIfacesDict] at hp
    cases hpair : kv.asPair with
    | none => simp [hpair] at hp
    | some pr =>
      obtain ⟨ifaceIt, v⟩ := pr
      simp only [hpair] at hp
      cases hstr : ifaceIt.asStr with
      | none => simp [hstr] at hp
      | some iface =>
        simp only [hstr] at hp
        rcases List.mem_append.mp hp with hp | hp
        · by_cases hc : (iface == DEVICE_INTERFACE &&
              ((Device.new op).adapter_object_path == ap)) = true
          · rw [if_pos hc] at hp
            simp only [List.mem_singleton] at hp
            subst hp
            exact eq_of_beq ((Bool.and_eq_true _ _).mp hc).2
          · rw [if_neg hc] at hp; simp at hp
        · exact ih p hp

theorem processItem_found (ap : String) (c : ConnectionItem) :
    ∀ p ∈ (processItem ap c).1, (Device.new p).adapter_object_path = ap := by
  intro p hp
  cases c with
  | nonSignal => simp [processItem] at hp
  | signal m pa args =>
    simp only [processItem] at hp
    repeat' split at hp
    all_goals first
      | (exact scanIfacesDict_found _ _ _ p hp)
      | simp_all

theorem discoveryLoop_found (ap : String) (dur : Nat) (stopRes : Except BtError Unit) :
    ∀ (stream : List (ConnectionItem × Nat)) (p : String),
      BusAction.deviceFound p ∈ (discoveryLoop ap dur stopRes stream).1 →
      (Device.new p).adapter_object_path = ap := by
  intro stream
  induction stream with
  | nil => intro p hp; simp [discoveryLoop] at hp
  | cons it rest ih =>
    intro p hp
    obtain ⟨item, elapsed⟩ := it
    simp only [discoveryLoop] at hp
    have hmap : ∀ hq : BusAction.deviceFound p ∈
        (processItem ap item).1.map BusAction.deviceFound,
        (Device.new p).adapter_object_path = ap := by
      intro hq
      simp only [List.mem_map, BusAction.deviceFound.injEq] at hq
      obtain ⟨q, hq1, hq2⟩ := hq
      exact hq2 ▸ processItem_found ap item q hq1
    repeat' split at hp
    all_goals
      first
        | exact hmap hp
        | (rcases List.mem_append.mp hp with hp | hp
           · exact hmap hp
           · first
               | exact ih p hp
               | simp_all)

theorem session_found (env : BusEnv) (ap : String) (dur : Nat) (p : String)
    (hp : BusAction.deviceFound p ∈ (start_discovery_session env ap dur).1) :
    (Device.new p).adapter_object_path = ap := by
  have hloop := discoveryLoop_found ap dur env.stopDiscoveryRes env.stream p
  unfold start_discovery_session at hp
  cases h1 : env.addMatchRes filter1 with
  | error e => simp [h1] at hp
  | ok u1 =>
    simp only [h1] at hp
    cases h2 : env.addMatchRes filter2 with
    | error e => simp [h2] at hp
    | ok u2 =>
      simp only [h2] at hp
      cases h3 : env.startDiscoveryRes with
      | error e => simp [h3] at hp
      | ok u3 =>
        simp only [h3] at hp
        cases hex : (discoveryLoop ap dur env.stopDiscoveryRes env.stream).2
        all_goals simp only [hex] at hp
        all_goals
          first
            | (simp at hp; exact hloop hp)
            | (cases h4 : env.removeMatchRes filter1 with
               | error e => simp only [h4] at hp; simp at hp; exact hloop hp
               | ok u4 =>
                 simp only [h4] at hp
                 cases h5 : env.removeMatchRes filter2 with
                 | error e => simp only [h5] at hp; simp at hp; exact hloop hp
                 | ok u5 => simp only [h5] at hp; simp at hp; exact hloop hp)

/-- C5 — the derived parent-adapter path is the portion of the object path
before its last segment, and `start_discovery_session` invokes
`on_device_found` only for device handles whose derived parent equals the
session adapter's path; a device under another adapter is never reported. -/
theorem discovery_reports_only_children :
    (∀ (env : BusEnv) (adapterPath : String) (duration : Nat) (p : String),
        BusAction.deviceFound p ∈ (start_discovery_session env adapterPath duration).1 →
        (Device.new p).adapter_object_path = adapterPath) ∧
    (Device.new "/org/bluez/hci0/dev_AA_BB").adapter_object_path = "/org/bluez/hci0" ∧
    (Device.new "/org/bluez/hci1/dev_CC_DD").adapter_object_path = "/org/bluez/hci1" ∧
    (Device.new "/org/bluez/hci1/dev_CC_DD").adapter_object_path ≠ "/org/bluez/hci0" := by
  refine ⟨fun env ap dur p hp => session_found env ap dur p hp, by rfl, by rfl, by decide⟩


/-- Witness for C5: in `envDevFound` the session reports
`/org/bluez/hci0/dev_AA_BB`, and its derived parent is the session adapter. -/
theorem discovery_reports_only_children_witness :
    (Device.new "/org/bluez/hci0/dev_AA_BB").adapter_object_path = "/org/bluez/hci0" :=
  discovery_reports_only_children.1 envDevFound "/org/bluez/hci0" 0
    "/org/bluez/hci0/dev_AA_BB" (by decide)

theorem scanProps_brk :
    ∀ props : List MessageItem, scanProps props = .brk →
      MessageItem.dictEntry (.str "Discovering") (.variant (.bool false)) ∈ props := by
  intro props
  induction props with
  | nil => intro h; simp [scanProps] at h
  | cons p rest ih =>
    intro h
    simp only [scanProps] at h
    cases hpair : p.asPair with
    | none => simp [hpair] at h
    | some pr =>
      obtain ⟨nameIt, val⟩ := pr
      simp only [hpair] at h
      cases hname : nameIt.asStr with
      | none => simp [hname] at h
      | some nm =>
        simp only [hname] at h
        by_cases hd : (nm == "Discovering") = true
        · rw [if_pos hd] at h
          cases hvar : val.asVariant with
          | none => simp [hvar] at h
          | some inner =>
            simp only [hvar] at h
            cases hbool : inner.asBool with
            | none => simp [hbool] at h
            | some v =>
              simp only [hbool] at h
              by_cases hv : (!v) = true
              · rw [if_pos hv] at h
                have h1 : nameIt = .str "Discovering" := by
                  rw [MessageItem.asStr_some hname, eq_of_beq hd]
                have h2 : val = .variant (.bool false) := by
                  rw [MessageItem.asVariant_some hvar,
                      MessageItem.asBool_some hbool, Bool.not_eq_true' .. |>.mp hv]
                rw [MessageItem.asPair_some hpair, h1, h2]
                exact List.mem_cons_self _ _
              · rw [if_neg hv] at h
                exact List.mem_cons_of_mem _ (ih h)
        · rw [if_neg hd] at h
          exact List.mem_cons_of_mem _ (ih h)

theorem scanIfacesDict_snd_ne_brk (ap op : String) :
    ∀ l : List MessageItem, (scanIfacesDict ap op l).2 ≠ SigStep.brk := by
  intro l
  induction l with
  | nil => simp [scanIfacesDict]
  | cons kv rest ih =>
    simp only [scanIfacesDict]
    cases hpair : kv.asPair with
    | none => simp [hpair]
    | some pr =>
      obtain ⟨ifaceIt, v⟩ := pr
      simp only [hpair]
      cases hstr : ifaceIt.asStr with
      | none => simp [hstr]
      | some iface =>
        simp only [hstr]
        simpa using ih

theorem processItem_brk (ap : String) (c : ConnectionItem)
    (h : (processItem ap c).2 = .brk) :
    ∃ m pa args, c = .signal m pa args ∧ m = "PropertiesChanged" ∧ pa = ap ∧
      ∃ props, args[1]? = some (.array props) ∧ scanProps props = .brk := by
  cases c with
  | nonSignal => simp [processItem] at h
  | signal m pa args =>
    refine ⟨m, pa, args, rfl, ?_⟩
    simp only [processItem] at h
    by_cases h1 : (m == "PropertiesChanged" && pa == ap) = true
    · rw [if_pos h1] at h
      obtain ⟨hm, hp⟩ := (Bool.and_eq_true _ _).mp h1
      refine ⟨eq_of_beq hm, eq_of_beq hp, ?_⟩
      cases hg0 : args[0]? with
      | none => simp [hg0] at h
      | some it0 =>
        simp only [hg0] at h
        cases hs0 : it0.asStr with
        | none => simp [hs0] at h
        | some iface =>
          simp only [hs0] at h
          by_cases hi : (iface == ADAPTER_INTERFACE) = true
          · rw [if_pos hi] at h
            cases hg1 : args[1]? with
            | none => simp [hg1] at h
            | some it1 =>
              simp only [hg1] at h
              cases ha1 : it1.asArray with
              | none => simp [ha1] at h
              | some props =>
                simp only [ha1] at h
                exact ⟨props, by rw [MessageItem.asArray_some ha1], h⟩
          · rw [if_neg hi] at h; simp at h
    · rw [if_neg h1] at h
      exfalso
      by_cases h2 : (m == "InterfacesAdded") = true
      · rw [if_pos h2] at h
        cases hg0 : args[0]? with
        | none => simp [hg0] at h
        | some it0 =>
          simp only [hg0] at h
          cases hs0 : it0.asStr with
          | none => simp [hs0] at h
          | some obj_path =>
            simp only [hs0] at h
            cases hg1 : args[1]? with
            | none => simp [hg1] at h
            | some it1 =>
              simp only [hg1] at h
              cases ha1 : it1.asArray with
              | none => simp [ha1] at h
              | some dict =>
                simp only [ha1] at h
                exact scanIfacesDict_snd_ne_brk ap obj_path dict h
      · rw [if_neg h2] at h; simp at h

theorem countStopDiscovery_map_deviceFound (l : List String) :
    countStopDiscovery (l.map BusAction.deviceFound) = 0 := by
  induction l with
  | nil => rfl
  | cons a l ih => simp [countStopDiscovery, List.countP_cons] at ih ⊢

theorem discoveryLoop_zero (ap : String) (stopRes : Except BtError Unit) :
    ∀ stream : List (ConnectionItem × Nat),
      countStopDiscovery (discoveryLoop ap 0 stopRes stream).1 = 0 ∧
      (discoveryLoop ap 0 stopRes stream).2 ≠ .timedOut ∧
      (∀ e, (discoveryLoop ap 0 stopRes stream).2 ≠ .stopErr e) ∧
      ((discoveryLoop ap 0 stopRes stream).2 = .stopped →
        ∃ it ∈ stream, (processItem ap it.1).2 = SigStep.brk) := by
  intro stream
  induction stream with
  | nil =>
    exact ⟨rfl, by simp [discoveryLoop], fun e => by simp [discoveryLoop],
           by simp [discoveryLoop]⟩
  | cons it rest ih =>
    obtain ⟨item, elapsed⟩ := it
    obtain ⟨ih1, ih2, ih3, ih4⟩ := ih
    cases hstep : (processItem ap item).2 with
    | panicked =>
      refine ⟨?_, ?_, ?_, ?_⟩ <;>
        simp [discoveryLoop, hstep, countStopDiscovery_map_deviceFound]
    | brk =>
      refine ⟨?_, ?_, ?_, ?_⟩ <;>
        simp [discoveryLoop, hstep, countStopDiscovery_map_deviceFound]
    | cont =>
      have hred : discoveryLoop ap 0 stopRes ((item, elapsed) :: rest) =
          ((processItem ap item).1.map BusAction.deviceFound ++
            (discoveryLoop ap 0 stopRes rest).1,
           (discoveryLoop ap 0 stopRes rest).2) := by
        simp [discoveryLoop, hstep]
      rw [hred]
      refine ⟨?_, ih2, ih3, ?_⟩
      · simp [countStopDiscovery, List.countP_append,
              countStopDiscovery_map_deviceFound] at *
        exact ih1
      · intro hst
        obtain ⟨it2, hmem, hbrk⟩ := ih4 hst
        exact ⟨it2, List.mem_cons_of_mem _ hmem, hbrk⟩

/-- C6 — a discovery loop with duration bound `0` never issues
`StopDiscovery` and never exits through the timed-out (or failed-stop)
branch; whenever it ends in the `stopped` state, some stream item took the
`Discovering = false` break, and that break only happens on a
`PropertiesChanged` signal on the adapter's own path whose property list
contains a `Discovering ↦ variant(false)` entry. -/
theorem zero_duration_unbounded :
    (∀ (ap : String) (stopRes : Except BtError Unit)
        (stream : List (ConnectionItem × Nat)),
      countStopDiscovery (discoveryLoop ap 0 stopRes stream).1 = 0 ∧
      (discoveryLoop ap 0 stopRes stream).2 ≠ .timedOut ∧
      (∀ e, (discoveryLoop ap 0 stopRes stream).2 ≠ .stopErr e) ∧
      ((discoveryLoop ap 0 stopRes stream).2 = .stopped →
        ∃ it ∈ stream, (processItem ap it.1).2 = SigStep.brk)) ∧
    (∀ (ap : String) (c : ConnectionItem), (processItem ap c).2 = SigStep.brk →
      ∃ m pa args, c = .signal m pa args ∧ m = "PropertiesChanged" ∧ pa = ap ∧
        ∃ props, args[1]? = some (.array props) ∧ scanProps props = SigStep.brk) ∧
    (∀ props : List MessageItem, scanProps props = SigStep.brk →
      MessageItem.dictEntry (.str "Discovering") (.variant (.bool false)) ∈ props) :=
  ⟨fun ap stopRes stream => discoveryLoop_zero ap stopRes stream,
   fun ap c h => processItem_brk ap c h,
   scanProps_brk⟩


/-- Witness for C6 on `streamDiscoveringFalse`: no `StopDiscovery` is issued,
and the `stopped` exit is caused by an item whose processing takes the
break branch. -/
theorem zero_duration_unbounded_witness :
    countStopDiscovery
      (discoveryLoop "/org/bluez/hci0" 0 (.ok ()) streamDiscoveringFalse).1 = 0 ∧
    (∃ it ∈ streamDiscoveringFalse,
      (processItem "/org/bluez/hci0" it.1).2 = SigStep.brk) ∧
    MessageItem.dictEntry (.str "Discovering") (.variant (.bool false)) ∈
      [MessageItem.dictEntry (.str "Discovering") (.variant (.bool false))] :=
  ⟨(zero_duration_unbounded.1 "/org/bluez/hci0" (.ok ()) streamDiscoveringFalse).1,
   (zero_duration_unbounded.1 "/org/bluez/hci0" (.ok ()) streamDiscoveringFalse).2.2.2
     (by rfl),
   zero_duration_unbounded.2.2
     [MessageItem.dictEntry (.str "Discovering") (.variant (.bool false))] (by rfl)⟩

theorem strStartsWith_slash (s : String) :
    strStartsWith s "/" = true ↔ ∃ t, s.data = '/' :: t := by
  unfold strStartsWith
  rw [List.isPrefixOf_iff_prefix]
  constructor
  · rintro ⟨t, ht⟩
    exact ⟨t, by rw [← ht]; rfl⟩
  · rintro ⟨t, ht⟩
    exact ⟨t, by rw [ht]; rfl⟩

theorem normalizeRoot_slash (path : String) (h : strStartsWith path "/" = true) :
    strStartsWith (normalizeRoot path) "/" = true := by
  unfold normalizeRoot
  split
  · exact h
  · obtain ⟨t, ht⟩ := (strStartsWith_slash path).mp h
    refine (strStartsWith_slash _).mpr ⟨t ++ "/".data, ?_⟩
    rw [String.data_append, ht]
    simp

theorem strStartsWith_trans_slash (p npath : String)
    (h1 : strStartsWith p npath = true) (h2 : strStartsWith npath "/" = true) :
    p ≠ "" ∧ strStartsWith p "/" = true := by
  obtain ⟨t, ht⟩ := (strStartsWith_slash npath).mp h2
  unfold strStartsWith at h1
  rw [List.isPrefixOf_iff_prefix] at h1
  obtain ⟨r, hr⟩ := h1
  have hp : p.data = '/' :: (t ++ r) := by rw [← hr, ht]; simp
  refine ⟨fun he => ?_, (strStartsWith_slash p).mpr ⟨t ++ r, hp⟩⟩
  rw [he] at hp
  simp at hp

theorem aop_parent_slash (p ap : String)
    (hap : strStartsWith ap "/" = true)
    (heq : (Device.new p).adapter_object_path = ap) :
    p ≠ "" ∧ strStartsWith p "/" = true := by
  by_cases hsep : '/' ∈ p.data
  · obtain ⟨seg, hseg, hdecomp⟩ := adapter_object_path_sep p hsep
    rw [heq] at hdecomp
    obtain ⟨t, ht⟩ := (strStartsWith_slash ap).mp hap
    have hp : p.data = '/' :: (t ++ '/' :: seg) := by rw [hdecomp, ht]; simp
    refine ⟨fun he => ?_, (strStartsWith_slash p).mpr ⟨_, hp⟩⟩
    rw [he] at hp
    simp at hp
  · have hno := adapter_object_path_no_sep p hsep
    rw [hno] at heq
    subst heq
    obtain ⟨t, ht⟩ := (strStartsWith_slash p).mp hap
    refine ⟨fun he => ?_, hap⟩
    rw [he] at ht
    simp at ht

/-- C9, counterexample — `Device::new` stores an arbitrary string verbatim: a
handle built from `"foo"` has object path `"foo"`, which does not begin
with `'/'` (and the claim covers handles built "via the public Device::new
constructor with an arbitrary string"). -/
theorem device_new_arbitrary_breaks_invariant :
    (Device.new "foo").object_path = "foo" ∧
    strStartsWith (Device.new "foo").object_path "/" = false := by
  exact ⟨rfl, by rfl⟩

/-- C9, amended — the invariant holds for the construction routes that go
through the library's own path handling: every handle produced by
enumeration under a root path beginning with `'/'` has a non-empty object
path beginning with `'/'`, as does every device handle reported by a
discovery session whose adapter path begins with `'/'`; `Device::new`
stores its argument verbatim, so a handle built from an arbitrary string
satisfies the invariant only when the argument itself does. -/
theorem handle_path_invariant_amended :
    (∀ (path iface : String) (objects : List MessageItem) (res : List String),
        strStartsWith path "/" = true →
        dbus_get_managed_objects path iface objects = .ok res →
        ∀ p ∈ res, p ≠ "" ∧ strStartsWith p "/" = true) ∧
    (∀ (env : BusEnv) (ap : String) (dur : Nat) (p : String),
        strStartsWith ap "/" = true →
        BusAction.deviceFound p ∈ (start_discovery_session env ap dur).1 →
        p ≠ "" ∧ strStartsWith p "/" = true) ∧
    (∀ s : String, (Device.new s).object_path = s) := by
  refine ⟨?_, ?_, fun s => rfl⟩
  · intro path iface objects res hroot hok p hp
    obtain ⟨hsw, -⟩ := walkObjects_mem (normalizeRoot path) iface objects res hok p hp
    exact strStartsWith_trans_slash p (normalizeRoot path) hsw
      (normalizeRoot_slash path hroot)
  · intro env ap dur p hap hp
    exact aop_parent_slash p ap hap (session_found env ap dur p hp)

/-- Witness for C9 (amended): a concrete enumeration result and a concrete
reported device both get non-empty `'/'`-paths. -/
theorem handle_path_invariant_amended_witness :
    ("/org/bluez/hci0" ≠ "" ∧ strStartsWith "/org/bluez/hci0" "/" = true) ∧
    ("/org/bluez/hci0/dev_AA_BB" ≠ "" ∧
      strStartsWith "/org/bluez/hci0/dev_AA_BB" "/" = true) :=
  ⟨handle_path_invariant_amended.1 "/org/bluez" ADAPTER_INTERFACE
      [.dictEntry (.str "/org/bluez/hci0")
        (.array [.dictEntry (.str ADAPTER_INTERFACE) (.array [])])]
      ["/org/bluez/hci0"] (by rfl) (by rfl) "/org/bluez/hci0" (by simp),
   handle_path_invariant_amended.2.1 envDevFound "/org/bluez/hci0" 0
      "/org/bluez/hci0/dev_AA_BB" (by rfl) (by decide)⟩
